import Mathlib

/-!
Shallow embedding of `highway_env/envs/highway_env.py`: the configuration
dictionaries, reward computation, termination policy, per-episode control
state and the auxiliary lane-distance query of the `HighwayEnv` and
`DevHighway` environments.

Numbers are modelled as exact rationals.  External collaborators (the
kinematics engine, lane geometry and `np.cos`) are consumed through their
interfaces: the vehicle record carries the observables the reward code reads
(`crashed`, `on_road`, lane numbers, the count returned by `all_side_lanes`,
`speed`, `heading`, and the lateral lane-local coordinate), and the cosine is
an explicit function parameter.  Fallible Python operations (`config[key]`
lookups, which raise `KeyError` when the key is absent) return `Option`.
-/

/-- Configuration values stored in an environment's config dictionary. -/
inductive CVal where
  | num (q : ℚ)
  | bool (b : Bool)
  | range (lo hi : ℚ)
  | misc (tag : String)
  deriving DecidableEq

/-- A configuration dictionary: association list, first binding wins. -/
abbrev CfgDict := List (String × CVal)

/-- Python `dict` lookup of a key. -/
def cfgVal (c : CfgDict) (name : String) : Option CVal :=
  List.lookup name c

/-- Python `self.config.get(name, 0)` as used for the reward weights
(`HighwayEnv._reward` line 101, `DevHighway._reward` line 193): an absent
weight contributes the default 0.  Configured reward weights are numeric. -/
def cfgGetNum (c : CfgDict) (name : String) : ℚ :=
  match cfgVal c name with
  | some (CVal.num q) => q
  | _ => 0

/-- Numeric `self.config[name]` bracket access (raises when absent). -/
def numAt (c : CfgDict) (name : String) : Option ℚ :=
  match cfgVal c name with
  | some (CVal.num q) => some q
  | _ => none

/-- Boolean `self.config[name]` bracket access (raises when absent). -/
def boolAt (c : CfgDict) (name : String) : Option Bool :=
  match cfgVal c name with
  | some (CVal.bool b) => some b
  | _ => none

/-- Two-element-list `self.config[name]` bracket access, used for
`reward_speed_range` `= [low, high]`. -/
def rangeAt (c : CfgDict) (name : String) : Option (ℚ × ℚ) :=
  match cfgVal c name with
  | some (CVal.range lo hi) => some (lo, hi)
  | _ => none

/-- Python `config.update(...)`: the updating bindings shadow the base ones
(lookup-equivalent of the in-place mutation). -/
def dictUpdate (base upd : CfgDict) : CfgDict := upd ++ base

/-- Modelled from the spec: `utils.lmap` lives in `highway_env/utils.py`,
which is not under `src/`; the spec's glossary defines normalization as the
"linear remap of the raw weighted reward sum onto [0,1] using configured
theoretical bounds", i.e. the affine map sending `[x0, x1]` to `[y0, y1]`. -/
def lmap (v x0 x1 y0 y1 : ℚ) : ℚ :=
  y0 + (v - x0) * (y1 - y0) / (x1 - x0)

/-- `np.clip v lo hi` (external numpy): clamp `v` into `[lo, hi]`. -/
def clip (v lo hi : ℚ) : ℚ := min (max v lo) hi

/-- The vehicle observables read by the reward and termination code.
`lane_index` and `target_lane_index` are the third components (lane numbers)
of the corresponding index triples; `side_lanes` is the length of
`road.network.all_side_lanes(vehicle.lane_index)`; `lateral` is the second
component of `vehicle.lane.local_coordinates(vehicle.position)` (external
lane geometry). -/
structure Veh where
  crashed : Bool
  on_road : Bool
  isControlled : Bool
  lane_index : ℕ
  target_lane_index : ℕ
  side_lanes : ℕ
  speed : ℚ
  heading : ℚ
  lateral : ℚ
  deriving DecidableEq

/-- The lane number used for `right_lane_reward`:
`self.vehicle.target_lane_index[2] if isinstance(self.vehicle, ControlledVehicle)
else self.vehicle.lane_index[2]`. -/
def laneOf (v : Veh) : ℕ :=
  if v.isControlled then v.target_lane_index else v.lane_index

/-- Per-episode control-smoothness state of `DevHighway`
(`self.previous_steering`, `self.previous_acceleration`). -/
structure EpState where
  previous_steering : ℚ
  previous_acceleration : ℚ
  deriving DecidableEq

/-- `DevHighway._reset` (lines 258-261): after `super()._reset()` rebuilds the
road and vehicles, both previous-control values are set to 0. -/
def DevHighway.reset_state : EpState := { previous_steering := 0, previous_acceleration := 0 }

/-- The component dictionary returned by `HighwayEnv._rewards`. -/
structure BaseComps where
  collision_reward : ℚ
  right_lane_reward : ℚ
  high_speed_reward : ℚ
  on_road_reward : ℚ
  deriving DecidableEq

/-- The component dictionary returned by `DevHighway._rewards`. -/
structure DevComps where
  collision_reward : ℚ
  right_lane_reward : ℚ
  high_speed_reward : ℚ
  on_road_reward : ℚ
  lane_centering_reward : ℚ
  abrupt_steering_penalty : ℚ
  abrupt_acceleration_penalty : ℚ
  deriving DecidableEq

/-- `rewards.items()` of the base component dictionary, in insertion order. -/
def BaseComps.toList (r : BaseComps) : List (String × ℚ) :=
  [("collision_reward", r.collision_reward),
   ("right_lane_reward", r.right_lane_reward),
   ("high_speed_reward", r.high_speed_reward),
   ("on_road_reward", r.on_road_reward)]

/-- `rewards.items()` of the extended component dictionary, in insertion order. -/
def DevComps.toList (r : DevComps) : List (String × ℚ) :=
  [("collision_reward", r.collision_reward),
   ("right_lane_reward", r.right_lane_reward),
   ("high_speed_reward", r.high_speed_reward),
   ("on_road_reward", r.on_road_reward),
   ("lane_centering_reward", r.lane_centering_reward),
   ("abrupt_steering_penalty", r.abrupt_steering_penalty),
   ("abrupt_acceleration_penalty", r.abrupt_acceleration_penalty)]

/-- `sum(self.config.get(name, 0) * reward for name, reward in rewards.items())`. -/
def wSum (c : CfgDict) (comps : List (String × ℚ)) : ℚ :=
  (comps.map (fun p => cfgGetNum c p.1 * p.2)).sum

/-- The bindings installed by `HighwayEnv.default_config` (lines 29-56) on top
of the inherited `AbstractEnv` defaults. -/
def highwayConfigUpdate : CfgDict :=
  [("observation", CVal.misc "Kinematics"),
   ("action", CVal.misc "DiscreteMetaAction"),
   ("lanes_count", CVal.num 4),
   ("vehicles_count", CVal.num 50),
   ("controlled_vehicles", CVal.num 1),
   ("initial_lane_id", CVal.misc "None"),
   ("duration", CVal.num 40),
   ("ego_spacing", CVal.num 2),
   ("vehicles_density", CVal.num 1),
   ("collision_reward", CVal.num (-1)),
   ("right_lane_reward", CVal.num 0.1),
   ("high_speed_reward", CVal.num 0.4),
   ("lane_change_reward", CVal.num 0),
   ("reward_speed_range", CVal.range 20 30),
   ("normalize_reward", CVal.bool true),
   ("offroad_terminal", CVal.bool false)]

/-- `HighwayEnv.default_config()`: the inherited `AbstractEnv` defaults
(`base`, code not under `src/`) updated with `highwayConfigUpdate`. -/
def HighwayEnv.default_config (base : CfgDict) : CfgDict :=
  dictUpdate base highwayConfigUpdate

/-- The bindings installed by `DevHighway.default_config` (lines 167-183) on
top of `HighwayEnv.default_config()`. -/
def devConfigUpdate : CfgDict :=
  [("action", CVal.misc "ContinuousAction"),
   ("simulation_frequency", CVal.num 15),
   ("policy_frequency", CVal.num 15),
   ("lanes_count", CVal.num 3),
   ("vehicles_count", CVal.num 50),
   ("duration", CVal.num 30),
   ("ego_spacing", CVal.num 2),
   ("lane_centering_cost", CVal.num 4),
   ("lane_centering_reward", CVal.num 0.01),
   ("abrupt_steering_penalty", CVal.num 0.019),
   ("abrupt_acceleration_penalty", CVal.num 0.001),
   ("right_lane_reward", CVal.num 0.1),
   ("high_speed_reward", CVal.num 0.35),
   ("offroad_terminal", CVal.bool false)]

/-- `DevHighway.default_config()`. -/
def DevHighway.default_config (base : CfgDict) : CfgDict :=
  dictUpdate (HighwayEnv.default_config base) devConfigUpdate

/-- `HighwayEnv._rewards` (lines 111-124).  The action argument is unused by
the body and therefore omitted.  `cos` is `np.cos` (external). -/
def HighwayEnv.rewards (c : CfgDict) (cos : ℚ → ℚ) (v : Veh) : Option BaseComps :=
  match rangeAt c "reward_speed_range" with
  | none => none
  | some (lo, hi) =>
    let forward_speed := v.speed * cos v.heading
    let scaled_speed := lmap forward_speed lo hi 0 1
    some
      { collision_reward := if v.crashed then 1 else 0
        right_lane_reward := (laneOf v : ℚ) / ((max ((v.side_lanes : ℤ) - 1) 1 : ℤ) : ℚ)
        high_speed_reward := clip scaled_speed 0 1
        on_road_reward := if v.on_road then 1 else 0 }

/-- Lines 103-107 of `HighwayEnv._reward`: the optional normalization step
applied to the weighted sum. -/
def baseNormalize (c : CfgDict) (reward : ℚ) : Option ℚ :=
  match boolAt c "normalize_reward" with
  | none => none
  | some b =>
    if b then
      match numAt c "collision_reward", numAt c "high_speed_reward",
            numAt c "right_lane_reward" with
      | some cw, some hw, some rw => some (lmap reward cw (hw + rw) 0 1)
      | _, _, _ => none
    else some reward

/-- `HighwayEnv._reward` (lines 94-109): weighted sum of the components,
optional normalization, then the on-road gate. -/
def HighwayEnv.reward (c : CfgDict) (cos : ℚ → ℚ) (v : Veh) : Option ℚ :=
  match HighwayEnv.rewards c cos v with
  | none => none
  | some comps =>
    match baseNormalize c (wSum c comps.toList) with
    | none => none
    | some r => some (r * comps.on_road_reward)

/-- `DevHighway._rewards` (lines 205-246).  The action is the continuous pair
`(acceleration, steering)` — the code reads `action[1]` as steering and
`action[0]` as acceleration.  The episode state is threaded explicitly; each
`(none, ...)` branch records which assignments had already happened when the
corresponding `config[...]` lookup raises (the `lane_centering_cost` lookup
happens while building the returned dictionary, after both state updates). -/
def DevHighway.rewards (c : CfgDict) (cos : ℚ → ℚ) (v : Veh) (a : ℚ × ℚ)
    (s : EpState) : Option DevComps × EpState :=
  match rangeAt c "reward_speed_range" with
  | none => (none, s)
  | some (lo, hi) =>
    let forward_speed := v.speed * cos v.heading
    let scaled_speed := lmap forward_speed lo hi 0 1
    let lateral := v.lateral
    match numAt c "abrupt_steering_penalty" with
    | none => (none, s)
    | some wst =>
      let steering_change_penalty := wst * |a.2 - s.previous_steering|
      let s1 : EpState := { s with previous_steering := a.2 }
      match numAt c "abrupt_acceleration_penalty" with
      | none => (none, s1)
      | some wac =>
        let acceleration_change_penalty := wac * |a.1 - s1.previous_acceleration|
        let s2 : EpState := { s1 with previous_acceleration := a.1 }
        match numAt c "lane_centering_cost" with
        | none => (none, s2)
        | some lcc =>
          (some
            { collision_reward := if v.crashed then -1 else 0
              right_lane_reward := (laneOf v : ℚ) / ((max ((v.side_lanes : ℤ) - 1) 1 : ℤ) : ℚ)
              high_speed_reward := clip scaled_speed 0 1
              on_road_reward := if v.on_road then 1 else 0
              lane_centering_reward := 1 / (1 + lcc * lateral ^ 2)
              abrupt_steering_penalty := -steering_change_penalty
              abrupt_acceleration_penalty := -acceleration_change_penalty }, s2)

/-- Lines 195-201 of `DevHighway._reward`: the optional normalization step
applied to the weighted sum; the upper bound adds the lane-centering and both
smoothness-penalty weights. -/
def devNormalize (c : CfgDict) (reward : ℚ) : Option ℚ :=
  match boolAt c "normalize_reward" with
  | none => none
  | some b =>
    if b then
      match numAt c "collision_reward", numAt c "high_speed_reward",
            numAt c "right_lane_reward", numAt c "lane_centering_reward",
            numAt c "abrupt_steering_penalty", numAt c "abrupt_acceleration_penalty" with
      | some cw, some hw, some rw, some lw, some sw, some aw =>
          some (lmap reward cw (hw + rw + lw + sw + aw) 0 1)
      | _, _, _, _, _, _ => none
    else some reward

/-- `DevHighway._reward` (lines 186-203). -/
def DevHighway.reward (c : CfgDict) (cos : ℚ → ℚ) (v : Veh) (a : ℚ × ℚ)
    (s : EpState) : Option ℚ × EpState :=
  match DevHighway.rewards c cos v a s with
  | (none, s') => (none, s')
  | (some comps, s') =>
    match devNormalize c (wSum c comps.toList) with
    | none => (none, s')
    | some r => (some (r * comps.on_road_reward), s')

/-- `HighwayEnv._is_terminated` (lines 126-129): Python `or` short-circuits,
so when the vehicle is crashed the `config["offroad_terminal"]` lookup is
never evaluated. -/
def HighwayEnv.is_terminated (c : CfgDict) (v : Veh) : Option Bool :=
  if v.crashed then some true
  else
    match boolAt c "offroad_terminal" with
    | none => none
    | some ot => some (ot && !v.on_road)

/-- A lane segment of the road-network graph, seen through the external
geometry interface `lane.distance_with_heading(position, heading)`. -/
structure Lane where
  distance_with_heading : ℚ × ℚ → ℚ → ℚ

/-- What `DevHighway.lane_distance` reads from its vehicle argument:
`vehicle.position`, `vehicle.heading` and `vehicle.road.network.graph`, the
latter a dict of dicts of lane lists keyed by (from-node, to-node). -/
structure RoadVeh where
  position : ℚ × ℚ
  heading : ℚ
  graph : List (String × List (String × List Lane))

/-- A Python return value of `DevHighway.lane_distance`: either a single list
(`return distances`) or a pair of lists (`return indexes, distances`). -/
inductive PyRet where
  | listD (distances : List ℚ)
  | tupleID (indexes : List (String × String × ℕ)) (distances : List ℚ)

/-- The two lists built by the loop body of `DevHighway.lane_distance`
(lines 249-255): for every `(_from, to_dict)` item, every `(_to, lanes)` item
and every enumerated lane, append the identifier triple to `indexes` and the
heading-aware distance to `distances`. -/
def DevHighway.lane_distance_lists (v : RoadVeh) : List (String × String × ℕ) × List ℚ :=
  v.graph.foldl
    (fun acc fp =>
      fp.2.foldl
        (fun acc2 tp =>
          tp.2.enum.foldl
            (fun acc3 il =>
              (acc3.1 ++ [(fp.1, tp.1, il.1)],
               acc3.2 ++ [il.2.distance_with_heading v.position v.heading]))
            acc2)
        acc)
    ([], [])

/-- `DevHighway.lane_distance` (lines 248-256): builds both lists but the
final statement is `return distances` — only the distances list is returned. -/
def DevHighway.lane_distance (v : RoadVeh) : PyRet :=
  PyRet.listD (DevHighway.lane_distance_lists v).2

/-- The default base-environment config with an empty inherited tail. -/
def cfg0 : CfgDict := HighwayEnv.default_config []

/-- The default extended-environment config with an empty inherited tail. -/
def dcfg0 : CfgDict := DevHighway.default_config []

/-- A concrete cosine stand-in for witnesses (`np.cos` is external). -/
def cos0 : ℚ → ℚ := fun _ => 1

/-- A concrete on-road, uncrashed vehicle on lane 1 of 3. -/
def exVeh : Veh :=
  { crashed := false, on_road := true, isControlled := false,
    lane_index := 1, target_lane_index := 1, side_lanes := 3,
    speed := 25, heading := 0, lateral := 0 }

/-- `exVeh` driven off-road. -/
def exOffVeh : Veh := { exVeh with on_road := false }

/-- `exVeh` after a crash. -/
def exCrashVeh : Veh := { exVeh with crashed := true }

/-- A concrete lane whose distance query returns 3 everywhere. -/
def exLaneA : Lane := { distance_with_heading := fun _ _ => 3 }

/-- A concrete lane whose distance query returns 4 everywhere. -/
def exLaneB : Lane := { distance_with_heading := fun _ _ => 4 }

/-- A concrete vehicle on a network with a single edge carrying two lanes. -/
def exRoadVeh : RoadVeh :=
  { position := (0, 0), heading := 0,
    graph := [("a", [("b", [exLaneA, exLaneB])])] }

/-- Unfolding lemma: what a successful `HighwayEnv._rewards` call returns. -/
theorem highwayRewards_some {c : CfgDict} {cos : ℚ → ℚ} {v : Veh} {comps : BaseComps}
    (h : HighwayEnv.rewards c cos v = some comps) :
    ∃ lo hi, rangeAt c "reward_speed_range" = some (lo, hi) ∧
      comps =
        { collision_reward := if v.crashed then 1 else 0
          right_lane_reward := (laneOf v : ℚ) / ((max ((v.side_lanes : ℤ) - 1) 1 : ℤ) : ℚ)
          high_speed_reward := clip (lmap (v.speed * cos v.heading) lo hi 0 1) 0 1
          on_road_reward := if v.on_road then 1 else 0 } := by
  rcases hr : rangeAt c "reward_speed_range" with _ | ⟨lo, hi⟩ <;>
    simp only [HighwayEnv.rewards, hr, Option.some.injEq] at h <;>
    first
      | exact Option.noConfusion h
      | exact ⟨lo, hi, rfl, h.symm⟩

/-- Unfolding lemma: what a successful `DevHighway._rewards` call returns,
and the episode state it leaves behind. -/
theorem devRewards_some {c : CfgDict} {cos : ℚ → ℚ} {v : Veh} {a : ℚ × ℚ}
    {s : EpState} {comps : DevComps} {s' : EpState}
    (h : DevHighway.rewards c cos v a s = (some comps, s')) :
    ∃ lo hi wst wac lcc,
      rangeAt c "reward_speed_range" = some (lo, hi) ∧
      numAt c "abrupt_steering_penalty" = some wst ∧
      numAt c "abrupt_acceleration_penalty" = some wac ∧
      numAt c "lane_centering_cost" = some lcc ∧
      comps =
        { collision_reward := if v.crashed then -1 else 0
          right_lane_reward := (laneOf v : ℚ) / ((max ((v.side_lanes : ℤ) - 1) 1 : ℤ) : ℚ)
          high_speed_reward := clip (lmap (v.speed * cos v.heading) lo hi 0 1) 0 1
          on_road_reward := if v.on_road then 1 else 0
          lane_centering_reward := 1 / (1 + lcc * v.lateral ^ 2)
          abrupt_steering_penalty := -(wst * |a.2 - s.previous_steering|)
          abrupt_acceleration_penalty := -(wac * |a.1 - s.previous_acceleration|) } ∧
      s' = { previous_steering := a.2, previous_acceleration := a.1 } := by
  rcases hr : rangeAt c "reward_speed_range" with _ | ⟨lo, hi⟩ <;>
    rcases h1 : numAt c "abrupt_steering_penalty" with _ | wst <;>
    rcases h2 : numAt c "abrupt_acceleration_penalty" with _ | wac <;>
    rcases h3 : numAt c "lane_centering_cost" with _ | lcc <;>
    simp only [DevHighway.rewards, hr, h1, h2, h3, Prod.mk.injEq,
      Option.some.injEq] at h <;>
    first
      | exact Option.noConfusion h.1
      | exact ⟨lo, hi, wst, wac, lcc, rfl, rfl, rfl, rfl, h.1.symm, h.2.symm⟩

/-- C1 (code evaluation at the failing input): on a network with one edge
carrying two lane segments, the loop of `DevHighway.lane_distance` builds the
identifier list `[("a","b",0), ("a","b",1)]` and the distance list `[3, 4]` —
two equal-length parallel lists, one entry per lane segment — but the function
body ends with `return distances`, so only the distances list is returned
(`PyRet.listD`), not the claimed pair of parallel sequences. -/
theorem claim_C1_eval :
    DevHighway.lane_distance exRoadVeh = PyRet.listD [3, 4] ∧
    (DevHighway.lane_distance_lists exRoadVeh).1 = [("a", "b", 0), ("a", "b", 1)] ∧
    (DevHighway.lane_distance_lists exRoadVeh).1.length
      = (DevHighway.lane_distance_lists exRoadVeh).2.length :=
  ⟨rfl, rfl, rfl⟩

/-- C7: `_is_terminated` returns crashed OR (offroad_terminal AND NOT on-road);
in particular it returns `true` whenever the vehicle is crashed, independent of
`offroad_terminal` and `on_road` (Python `or` short-circuits, so the config key
is not even consulted then). -/
theorem claim_C7 (c : CfgDict) (v : Veh) :
    (∀ ot, boolAt c "offroad_terminal" = some ot →
      HighwayEnv.is_terminated c v = some (v.crashed || (ot && !v.on_road))) ∧
    (v.crashed = true → HighwayEnv.is_terminated c v = some true) := by
  constructor
  · intro ot hot
    by_cases hc : v.crashed <;> simp [HighwayEnv.is_terminated, hc, hot]
  · intro hc
    simp [HighwayEnv.is_terminated, hc]

/-- C7 witness: concrete evaluations obtained through `claim_C7`. -/
theorem claim_C7_witness :
    HighwayEnv.is_terminated cfg0 exCrashVeh = some true ∧
    HighwayEnv.is_terminated cfg0 exOffVeh = some false := by
  constructor
  · exact (claim_C7 cfg0 exCrashVeh).2 rfl
  · have h := (claim_C7 cfg0 exOffVeh).1 false rfl
    simpa using h

/-- C8: in the weighted sum used by the aggregate reward of both policies, a
component whose name has no binding in the configuration contributes
`0 * value = 0` through the permissive `config.get(name, 0)` lookup, and the
sum is a total function (no error path). -/
theorem claim_C8 (c : CfgDict) (name : String) (x : ℚ) (l1 l2 : List (String × ℚ))
    (h : cfgVal c name = none) :
    cfgGetNum c name * x = 0 ∧ wSum c (l1 ++ (name, x) :: l2) = wSum c (l1 ++ l2) := by
  have h0 : cfgGetNum c name = 0 := by simp [cfgGetNum, h]
  refine ⟨by simp [h0], ?_⟩
  simp [wSum, h0]

/-- C8 witness: the default config has no `on_road_reward` weight, so that
component drops out of the weighted sum. -/
theorem claim_C8_witness :
    cfgGetNum cfg0 "on_road_reward" * 5 = 0 ∧
    wSum cfg0 ([("collision_reward", 1)] ++ ("on_road_reward", 5) :: [("high_speed_reward", 1)])
      = wSum cfg0 ([("collision_reward", 1)] ++ [("high_speed_reward", 1)]) :=
  claim_C8 cfg0 "on_road_reward" 5 [("collision_reward", 1)] [("high_speed_reward", 1)] rfl

/-- C10: whenever the config defines the speed range and both smoothness
weights, a `DevHighway._rewards` call sets `previous_steering` to the second
action component and `previous_acceleration` to the first — for every vehicle
state, crashed or off-road included — and the resulting episode state holds
nothing else (this holds even when the later `lane_centering_cost` lookup
would fail, since the assignments precede it). -/
theorem claim_C10 (c : CfgDict) (cos : ℚ → ℚ) (v : Veh) (a : ℚ × ℚ) (s : EpState)
    (lo hi w1 w2 : ℚ)
    (hr : rangeAt c "reward_speed_range" = some (lo, hi))
    (h1 : numAt c "abrupt_steering_penalty" = some w1)
    (h2 : numAt c "abrupt_acceleration_penalty" = some w2) :
    (DevHighway.rewards c cos v a s).2
      = { previous_steering := a.2, previous_acceleration := a.1 } := by
  simp only [DevHighway.rewards, hr, h1, h2]
  rcases h3 : numAt c "lane_centering_cost" with _ | lcc <;> simp [h3]

/-- C10 witness: a crashed vehicle still has its previous controls updated. -/
theorem claim_C10_witness :
    (DevHighway.rewards dcfg0 cos0 exCrashVeh (3, 4) DevHighway.reset_state).2
      = { previous_steering := 4, previous_acceleration := 3 } :=
  claim_C10 dcfg0 cos0 exCrashVeh (3, 4) DevHighway.reset_state 20 30 0.019 0.001 rfl rfl rfl

/-- C2: after a reset (both previous controls 0), a `DevHighway._rewards`
call whose second action component (steering) is 1/2 yields
`abrupt_steering_penalty = -(weight * (1/2))` and updates `previous_steering`
to 1/2; an immediately following call with steering again 1/2 yields
`abrupt_steering_penalty = 0`. -/
theorem claim_C2 (c : CfgDict) (cos : ℚ → ℚ) (v v' : Veh) (acc acc' : ℚ)
    (lo hi w wa lcc : ℚ)
    (hr : rangeAt c "reward_speed_range" = some (lo, hi))
    (hst : numAt c "abrupt_steering_penalty" = some w)
    (hac : numAt c "abrupt_acceleration_penalty" = some wa)
    (hlc : numAt c "lane_centering_cost" = some lcc) :
    ((DevHighway.rewards c cos v (acc, 1/2) DevHighway.reset_state).1).map
        DevComps.abrupt_steering_penalty = some (-(w * (1/2))) ∧
    ((DevHighway.rewards c cos v (acc, 1/2) DevHighway.reset_state).2).previous_steering
      = 1/2 ∧
    ((DevHighway.rewards c cos v' (acc', 1/2)
        (DevHighway.rewards c cos v (acc, 1/2) DevHighway.reset_state).2).1).map
        DevComps.abrupt_steering_penalty = some 0 := by
  simp only [DevHighway.rewards, DevHighway.reset_state, hr, hst, hac, hlc,
    Option.map_some']
  norm_num

/-- C2 witness: the default extended config, with steering weight 0.019. -/
theorem claim_C2_witness :
    ((DevHighway.rewards dcfg0 cos0 exVeh (0, 1/2) DevHighway.reset_state).1).map
        DevComps.abrupt_steering_penalty = some (-(0.019 * (1/2))) ∧
    ((DevHighway.rewards dcfg0 cos0 exVeh (0, 1/2) DevHighway.reset_state).2).previous_steering
      = 1/2 ∧
    ((DevHighway.rewards dcfg0 cos0 exVeh (0, 1/2)
        (DevHighway.rewards dcfg0 cos0 exVeh (0, 1/2) DevHighway.reset_state).2).1).map
        DevComps.abrupt_steering_penalty = some 0 :=
  claim_C2 dcfg0 cos0 exVeh exVeh 0 0 20 30 0.019 0.001 4 rfl rfl rfl rfl

/-- C3: with normalization enabled, the pre-gate aggregate of either policy is
the linear remap of the weighted component sum from `[collision_weight, U]` to
`[0, 1]`, where `U = high_speed + right_lane` weights in the base policy and
additionally adds the lane-centering and both smoothness-penalty weights in
the extended policy; the collision weight is the lower bound of the range. -/
theorem claim_C3 (c : CfgDict) (cos : ℚ → ℚ) (v : Veh) (a : ℚ × ℚ) (s : EpState)
    (cw hw rw lw sw aw : ℚ)
    (hn : boolAt c "normalize_reward" = some true)
    (hcw : numAt c "collision_reward" = some cw)
    (hhw : numAt c "high_speed_reward" = some hw)
    (hrw : numAt c "right_lane_reward" = some rw)
    (hlw : numAt c "lane_centering_reward" = some lw)
    (hsw : numAt c "abrupt_steering_penalty" = some sw)
    (haw : numAt c "abrupt_acceleration_penalty" = some aw) :
    (∀ comps, HighwayEnv.rewards c cos v = some comps →
      HighwayEnv.reward c cos v
        = some (lmap (wSum c comps.toList) cw (hw + rw) 0 1 * comps.on_road_reward)) ∧
    (∀ comps s', DevHighway.rewards c cos v a s = (some comps, s') →
      DevHighway.reward c cos v a s
        = (some (lmap (wSum c comps.toList) cw (hw + rw + lw + sw + aw) 0 1
            * comps.on_road_reward), s')) := by
  constructor
  · intro comps h
    simp [HighwayEnv.reward, h, baseNormalize, hn, hcw, hhw, hrw]
  · intro comps s' h
    simp [DevHighway.reward, h, devNormalize, hn, hcw, hhw, hrw, hlw, hsw, haw]

theorem evalBase_exVeh :
    HighwayEnv.rewards dcfg0 cos0 exVeh
      = some { collision_reward := 0, right_lane_reward := 1/2,
               high_speed_reward := 1/2, on_road_reward := 1 } := by
  have hr : rangeAt dcfg0 "reward_speed_range" = some (20, 30) := rfl
  simp only [HighwayEnv.rewards, hr, Option.some.injEq]
  norm_num [exVeh, laneOf, clip, lmap, cos0, max_def, min_def]

theorem evalDev_exVeh :
    DevHighway.rewards dcfg0 cos0 exVeh (0, 0) DevHighway.reset_state
      = (some { collision_reward := 0, right_lane_reward := 1/2,
                high_speed_reward := 1/2, on_road_reward := 1,
                lane_centering_reward := 1, abrupt_steering_penalty := 0,
                abrupt_acceleration_penalty := 0 },
         { previous_steering := 0, previous_acceleration := 0 }) := by
  have hr : rangeAt dcfg0 "reward_speed_range" = some (20, 30) := rfl
  have h1 : numAt dcfg0 "abrupt_steering_penalty" = some 0.019 := rfl
  have h2 : numAt dcfg0 "abrupt_acceleration_penalty" = some 0.001 := rfl
  have h3 : numAt dcfg0 "lane_centering_cost" = some 4 := rfl
  simp only [DevHighway.rewards, DevHighway.reset_state, hr, h1, h2, h3]
  norm_num [exVeh, laneOf, clip, lmap, cos0, max_def, min_def]

theorem evalBase_exOffVeh :
    HighwayEnv.rewards dcfg0 cos0 exOffVeh
      = some { collision_reward := 0, right_lane_reward := 1/2,
               high_speed_reward := 1/2, on_road_reward := 0 } := by
  have hr : rangeAt dcfg0 "reward_speed_range" = some (20, 30) := rfl
  simp only [HighwayEnv.rewards, hr, Option.some.injEq]
  norm_num [exOffVeh, exVeh, laneOf, clip, lmap, cos0, max_def, min_def]

theorem evalDev_exOffVeh :
    DevHighway.rewards dcfg0 cos0 exOffVeh (0, 0) DevHighway.reset_state
      = (some { collision_reward := 0, right_lane_reward := 1/2,
                high_speed_reward := 1/2, on_road_reward := 0,
                lane_centering_reward := 1, abrupt_steering_penalty := 0,
                abrupt_acceleration_penalty := 0 },
         { previous_steering := 0, previous_acceleration := 0 }) := by
  have hr : rangeAt dcfg0 "reward_speed_range" = some (20, 30) := rfl
  have h1 : numAt dcfg0 "abrupt_steering_penalty" = some 0.019 := rfl
  have h2 : numAt dcfg0 "abrupt_acceleration_penalty" = some 0.001 := rfl
  have h3 : numAt dcfg0 "lane_centering_cost" = some 4 := rfl
  simp only [DevHighway.rewards, DevHighway.reset_state, hr, h1, h2, h3]
  norm_num [exOffVeh, exVeh, laneOf, clip, lmap, cos0, max_def, min_def]

theorem evalBase_exCrashVeh :
    HighwayEnv.rewards dcfg0 cos0 exCrashVeh
      = some { collision_reward := 1, right_lane_reward := 1/2,
               high_speed_reward := 1/2, on_road_reward := 1 } := by
  have hr : rangeAt dcfg0 "reward_speed_range" = some (20, 30) := rfl
  simp only [HighwayEnv.rewards, hr, Option.some.injEq]
  norm_num [exCrashVeh, exVeh, laneOf, clip, lmap, cos0, max_def, min_def]

theorem evalDev_exCrashVeh :
    DevHighway.rewards dcfg0 cos0 exCrashVeh (0, 0) DevHighway.reset_state
      = (some { collision_reward := -1, right_lane_reward := 1/2,
                high_speed_reward := 1/2, on_road_reward := 1,
                lane_centering_reward := 1, abrupt_steering_penalty := 0,
                abrupt_acceleration_penalty := 0 },
         { previous_steering := 0, previous_acceleration := 0 }) := by
  have hr : rangeAt dcfg0 "reward_speed_range" = some (20, 30) := rfl
  have h1 : numAt dcfg0 "abrupt_steering_penalty" = some 0.019 := rfl
  have h2 : numAt dcfg0 "abrupt_acceleration_penalty" = some 0.001 := rfl
  have h3 : numAt dcfg0 "lane_centering_cost" = some 4 := rfl
  simp only [DevHighway.rewards, DevHighway.reset_state, hr, h1, h2, h3]
  norm_num [exCrashVeh, exVeh, laneOf, clip, lmap, cos0, max_def, min_def]

theorem dW_coll : cfgGetNum dcfg0 "collision_reward" = -1 := rfl

theorem dW_rl : cfgGetNum dcfg0 "right_lane_reward" = 0.1 := rfl

theorem dW_hs : cfgGetNum dcfg0 "high_speed_reward" = 0.35 := rfl

theorem dW_onr : cfgGetNum dcfg0 "on_road_reward" = 0 := rfl

theorem dW_lc : cfgGetNum dcfg0 "lane_centering_reward" = 0.01 := rfl

theorem dW_asp : cfgGetNum dcfg0 "abrupt_steering_penalty" = 0.019 := rfl

theorem dW_aap : cfgGetNum dcfg0 "abrupt_acceleration_penalty" = 0.001 := rfl

theorem claim_C3_witness :
    HighwayEnv.reward dcfg0 cos0 exVeh
      = some (lmap (9/40) (-1) (0.35 + 0.1) 0 1 * 1) ∧
    (DevHighway.reward dcfg0 cos0 exVeh (0, 0) DevHighway.reset_state).1
      = some (lmap (47/200) (-1) (0.35 + 0.1 + 0.01 + 0.019 + 0.001) 0 1 * 1) := by
  have h := claim_C3 dcfg0 cos0 exVeh (0, 0) DevHighway.reset_state
    (-1) 0.35 0.1 0.01 0.019 0.001 rfl rfl rfl rfl rfl rfl rfl
  constructor
  · rw [h.1 _ evalBase_exVeh]
    norm_num [wSum, BaseComps.toList, dW_coll, dW_rl, dW_hs, dW_onr]
  · rw [h.2 _ _ evalDev_exVeh]
    norm_num [wSum, DevComps.toList, dW_coll, dW_rl, dW_hs, dW_onr, dW_lc, dW_asp, dW_aap]

theorem claim_C4 (c : CfgDict) (cos : ℚ → ℚ) (v : Veh) (a : ℚ × ℚ) (s : EpState)
    (hoff : v.on_road = false) :
    (∀ r, HighwayEnv.reward c cos v = some r → r = 0) ∧
    (∀ r s', DevHighway.reward c cos v a s = (some r, s') → r = 0) := by
  constructor
  · intro r hr
    rcases hR : HighwayEnv.rewards c cos v with _ | comps <;>
      simp only [HighwayEnv.reward, hR] at hr
    · exact Option.noConfusion hr
    · rcases hN : baseNormalize c (wSum c comps.toList) with _ | pre <;>
        simp only [hN, Option.some.injEq] at hr
      · exact Option.noConfusion hr
      · obtain ⟨lo, hi, -, hc⟩ := highwayRewards_some hR
        rw [← hr, hc]
        simp [hoff]
  · intro r s' hrw
    rcases hR : DevHighway.rewards c cos v a s with ⟨o, st⟩
    rcases o with _ | comps <;>
      simp only [DevHighway.reward, hR, Prod.mk.injEq] at hrw
    · exact Option.noConfusion hrw.1
    · rcases hN : devNormalize c (wSum c comps.toList) with _ | pre <;>
        simp only [hN, Prod.mk.injEq, Option.some.injEq] at hrw
      · exact Option.noConfusion hrw.1
      · obtain ⟨lo, hi, wst, wac, lcc, -, -, -, -, hc, -⟩ := devRewards_some hR
        rw [← hrw.1, hc]
        simp [hoff]

theorem claim_C4_witness :
    HighwayEnv.reward dcfg0 cos0 exOffVeh = some 0 ∧
    (DevHighway.reward dcfg0 cos0 exOffVeh (0, 0) DevHighway.reset_state).1 = some 0 := by
  have h := claim_C4 dcfg0 cos0 exOffVeh (0, 0) DevHighway.reset_state rfl
  have hnr : boolAt dcfg0 "normalize_reward" = some true := rfl
  have hc : numAt dcfg0 "collision_reward" = some (-1) := rfl
  have hh : numAt dcfg0 "high_speed_reward" = some 0.35 := rfl
  have hw : numAt dcfg0 "right_lane_reward" = some 0.1 := rfl
  have hl : numAt dcfg0 "lane_centering_reward" = some 0.01 := rfl
  have hs : numAt dcfg0 "abrupt_steering_penalty" = some 0.019 := rfl
  have ha : numAt dcfg0 "abrupt_acceleration_penalty" = some 0.001 := rfl
  constructor
  · have er : HighwayEnv.reward dcfg0 cos0 exOffVeh
        = some (lmap (wSum dcfg0 (BaseComps.toList
            { collision_reward := 0, right_lane_reward := 1/2,
              high_speed_reward := 1/2, on_road_reward := 0 })) (-1) (0.35 + 0.1) 0 1 * 0) := by
      simp [HighwayEnv.reward, evalBase_exOffVeh, baseNormalize, hnr, hc, hh, hw]
    rw [er, h.1 _ er]
  · have er : (DevHighway.reward dcfg0 cos0 exOffVeh (0, 0) DevHighway.reset_state)
        = (some (lmap (wSum dcfg0 (DevComps.toList
            { collision_reward := 0, right_lane_reward := 1/2,
              high_speed_reward := 1/2, on_road_reward := 0,
              lane_centering_reward := 1, abrupt_steering_penalty := 0,
              abrupt_acceleration_penalty := 0 }))
              (-1) (0.35 + 0.1 + 0.01 + 0.019 + 0.001) 0 1 * 0),
           { previous_steering := 0, previous_acceleration := 0 }) := by
      simp only [DevHighway.reward, evalDev_exOffVeh, devNormalize, hnr, hc, hh, hw,
        hl, hs, ha]
      norm_num
    rw [er]
    exact congrArg some (h.2 _ _ er)

/-- Bounds of the right-lane formula `lane / max(side - 1, 1)` when the lane
number is one of the `side` side lanes. -/
theorem rl_bounds (lane side : ℕ) (h : lane < side) :
    0 ≤ (lane : ℚ) / ((max ((side : ℤ) - 1) 1 : ℤ) : ℚ) ∧
    (lane : ℚ) / ((max ((side : ℤ) - 1) 1 : ℤ) : ℚ) ≤ 1 ∧
    (side = 1 → (lane : ℚ) / ((max ((side : ℤ) - 1) 1 : ℤ) : ℚ) = 0) := by
  have hden1 : (1 : ℤ) ≤ max ((side : ℤ) - 1) 1 := le_max_right _ _
  have hdenQ : (1 : ℚ) ≤ ((max ((side : ℤ) - 1) 1 : ℤ) : ℚ) := by exact_mod_cast hden1
  have hpos : (0 : ℚ) < ((max ((side : ℤ) - 1) 1 : ℤ) : ℚ) := lt_of_lt_of_le zero_lt_one hdenQ
  refine ⟨div_nonneg (by positivity) hpos.le, ?_, ?_⟩
  · rw [div_le_one hpos]
    have hz : (lane : ℤ) ≤ max ((side : ℤ) - 1) 1 :=
      le_trans (by omega) (le_max_left _ _)
    calc (lane : ℚ) = ((lane : ℤ) : ℚ) := by norm_cast
    _ ≤ _ := by exact_mod_cast hz
  · intro hs
    subst hs
    have h0 : lane = 0 := by omega
    subst h0
    simp

/-- C5: in both policies the `right_lane_reward` component equals
`lane_number / max(side_lane_count - 1, 1)`; whenever the vehicle's lane
number is one of its side lanes it lies in `[0, 1]`, and with a single lane
it is 0 (the denominator floor of 1 prevents division by zero). -/
theorem claim_C5 (c : CfgDict) (cos : ℚ → ℚ) (v : Veh) (a : ℚ × ℚ) (s : EpState)
    (hlane : laneOf v < v.side_lanes) :
    (∀ comps, HighwayEnv.rewards c cos v = some comps →
      comps.right_lane_reward
          = (laneOf v : ℚ) / ((max ((v.side_lanes : ℤ) - 1) 1 : ℤ) : ℚ) ∧
        0 ≤ comps.right_lane_reward ∧ comps.right_lane_reward ≤ 1 ∧
        (v.side_lanes = 1 → comps.right_lane_reward = 0)) ∧
    (∀ comps s', DevHighway.rewards c cos v a s = (some comps, s') →
      comps.right_lane_reward
          = (laneOf v : ℚ) / ((max ((v.side_lanes : ℤ) - 1) 1 : ℤ) : ℚ) ∧
        0 ≤ comps.right_lane_reward ∧ comps.right_lane_reward ≤ 1 ∧
        (v.side_lanes = 1 → comps.right_lane_reward = 0)) := by
  obtain ⟨h0, h1, h2⟩ := rl_bounds (laneOf v) v.side_lanes hlane
  constructor
  · intro comps h
    obtain ⟨lo, hi, -, hc⟩ := highwayRewards_some h
    rw [hc]
    exact ⟨rfl, h0, h1, h2⟩
  · intro comps s' h
    obtain ⟨lo, hi, wst, wac, lcc, -, -, -, -, hc, -⟩ := devRewards_some h
    rw [hc]
    exact ⟨rfl, h0, h1, h2⟩

/-- C5 witness: lane 1 of 3 side lanes gives `right_lane_reward = 1/2` in
both policies. -/
theorem claim_C5_witness :
    (HighwayEnv.rewards dcfg0 cos0 exVeh).map BaseComps.right_lane_reward
      = some (1/2) ∧
    ((DevHighway.rewards dcfg0 cos0 exVeh (0, 0) DevHighway.reset_state).1).map
      DevComps.right_lane_reward = some (1/2) := by
  have h := claim_C5 dcfg0 cos0 exVeh (0, 0) DevHighway.reset_state (by decide)
  constructor
  · have hb := (h.1 _ evalBase_exVeh).1
    rw [evalBase_exVeh, Option.map_some', hb]
    norm_num [exVeh, laneOf, max_def]
  · rw [evalDev_exVeh]
    simp only [Option.map_some']

/-- C6: the base policy encodes the collision component as 1 if crashed else
0, while the extended policy encodes it as -1 if crashed else 0 — two
different sign conventions for the same concept. -/
theorem claim_C6 (c : CfgDict) (cos : ℚ → ℚ) (v : Veh) (a : ℚ × ℚ) (s : EpState) :
    (∀ comps, HighwayEnv.rewards c cos v = some comps →
      comps.collision_reward = if v.crashed then 1 else 0) ∧
    (∀ comps s', DevHighway.rewards c cos v a s = (some comps, s') →
      comps.collision_reward = if v.crashed then -1 else 0) := by
  constructor
  · intro comps h
    obtain ⟨lo, hi, -, hc⟩ := highwayRewards_some h
    rw [hc]
  · intro comps s' h
    obtain ⟨lo, hi, wst, wac, lcc, -, -, -, -, hc, -⟩ := devRewards_some h
    rw [hc]

/-- C6 witness: a crashed vehicle yields collision component 1 in the base
policy and -1 in the extended policy. -/
theorem claim_C6_witness :
    (HighwayEnv.rewards dcfg0 cos0 exCrashVeh).map BaseComps.collision_reward
      = some 1 ∧
    ((DevHighway.rewards dcfg0 cos0 exCrashVeh (0, 0) DevHighway.reset_state).1).map
      DevComps.collision_reward = some (-1) := by
  have h := claim_C6 dcfg0 cos0 exCrashVeh (0, 0) DevHighway.reset_state
  constructor
  · have hb := h.1 _ evalBase_exCrashVeh
    rw [evalBase_exCrashVeh, Option.map_some', hb]
    norm_num [exCrashVeh, exVeh]
  · rw [evalDev_exCrashVeh]
    simp only [Option.map_some']

/-- C9: under the inherited default configuration the collision weight is -1,
so in the extended policy the weighted collision term equals +1 when the
vehicle is crashed and 0 otherwise; hence a crash increases the
pre-normalization weighted sum by exactly 1 relative to the same state
without a crash. -/
theorem claim_C9 (base : CfgDict) (cos : ℚ → ℚ) (v : Veh) (a : ℚ × ℚ) (s : EpState) :
    ∃ comps comps' s1 s2,
      DevHighway.rewards (DevHighway.default_config base) cos
          { v with crashed := true } a s = (some comps, s1) ∧
      DevHighway.rewards (DevHighway.default_config base) cos
          { v with crashed := false } a s = (some comps', s2) ∧
      cfgGetNum (DevHighway.default_config base) "collision_reward"
          * comps.collision_reward = 1 ∧
      cfgGetNum (DevHighway.default_config base) "collision_reward"
          * comps'.collision_reward = 0 ∧
      wSum (DevHighway.default_config base) comps.toList
        = wSum (DevHighway.default_config base) comps'.toList + 1 := by
  have hr : rangeAt (DevHighway.default_config base) "reward_speed_range"
      = some (20, 30) := rfl
  have h1 : numAt (DevHighway.default_config base) "abrupt_steering_penalty"
      = some 0.019 := rfl
  have h2 : numAt (DevHighway.default_config base) "abrupt_acceleration_penalty"
      = some 0.001 := rfl
  have h3 : numAt (DevHighway.default_config base) "lane_centering_cost"
      = some 4 := rfl
  have hcw : cfgGetNum (DevHighway.default_config base) "collision_reward" = -1 := rfl
  have w1 : cfgGetNum (DevHighway.default_config base) "right_lane_reward" = 0.1 := rfl
  have w2 : cfgGetNum (DevHighway.default_config base) "high_speed_reward" = 0.35 := rfl
  have w4 : cfgGetNum (DevHighway.default_config base) "lane_centering_reward" = 0.01 := rfl
  have w5 : cfgGetNum (DevHighway.default_config base) "abrupt_steering_penalty" = 0.019 := rfl
  have w6 : cfgGetNum (DevHighway.default_config base) "abrupt_acceleration_penalty" = 0.001 := rfl
  have eT : DevHighway.rewards (DevHighway.default_config base) cos
      { v with crashed := true } a s
      = (some { collision_reward := -1,
                right_lane_reward :=
                  (laneOf v : ℚ) / ((max ((v.side_lanes : ℤ) - 1) 1 : ℤ) : ℚ),
                high_speed_reward := clip (lmap (v.speed * cos v.heading) 20 30 0 1) 0 1,
                on_road_reward := if v.on_road then 1 else 0,
                lane_centering_reward := 1 / (1 + 4 * v.lateral ^ 2),
                abrupt_steering_penalty := -(0.019 * |a.2 - s.previous_steering|),
                abrupt_acceleration_penalty := -(0.001 * |a.1 - s.previous_acceleration|) },
         { previous_steering := a.2, previous_acceleration := a.1 }) := by
    simp only [DevHighway.rewards, hr, h1, h2, h3]
    norm_num [laneOf]
  have eF : DevHighway.rewards (DevHighway.default_config base) cos
      { v with crashed := false } a s
      = (some { collision_reward := 0,
                right_lane_reward :=
                  (laneOf v : ℚ) / ((max ((v.side_lanes : ℤ) - 1) 1 : ℤ) : ℚ),
                high_speed_reward := clip (lmap (v.speed * cos v.heading) 20 30 0 1) 0 1,
                on_road_reward := if v.on_road then 1 else 0,
                lane_centering_reward := 1 / (1 + 4 * v.lateral ^ 2),
                abrupt_steering_penalty := -(0.019 * |a.2 - s.previous_steering|),
                abrupt_acceleration_penalty := -(0.001 * |a.1 - s.previous_acceleration|) },
         { previous_steering := a.2, previous_acceleration := a.1 }) := by
    simp only [DevHighway.rewards, hr, h1, h2, h3]
    norm_num [laneOf]
  refine ⟨_, _, _, _, eT, eF, ?_, ?_, ?_⟩
  · rw [hcw]
    norm_num
  · rw [hcw]
    norm_num
  · simp only [wSum, DevComps.toList, List.map_cons, List.map_nil, List.sum_cons,
      List.sum_nil, hcw, w1, w2, w4, w5, w6]
    ring
